import Mathlib

/-!
Verification development for the SeCaTiMaL repository.

The repository holds two Python scripts:
  * `train_preprocess_nipypeline_UMC_20191011.py` — a nipype preprocessing
    pipeline that wires external-tool nodes into a workflow graph;
  * `CAI-Unet/model.py` — a Keras 3D U-Net builder.

This file shallowly embeds the parts of both scripts that the checked claims
are about: the static workflow graph (nodes, field-to-field connections,
datasink configuration, hard-coded configuration values), the symbolic Keras
layer graph built by `unet_model_3d` and its helpers, the module's import-time
`try/except ImportError` logic, and the (broken) dilated-convolution helpers
`create_dilated_fusion_block` / `dilated_couple` / `dilated_conv`, with Python
call-argument binding and name lookup modelled explicitly where those scripts
fail.
-/

/-! ## Preprocessing workflow graph
Embeds `train_preprocess_nipypeline_UMC_20191011.py`.  Each nipype `Node` /
`MapNode` of the script is a constructor of `WNode`; each `wf.connect` call
contributes one `WEdge` (source node, source field, destination node,
destination field) to `wfConnections`, in the source order of the script. -/

inductive WNode where
  | infosource
  | selectfiles
  | selecttemplates
  | UMC_TSE_trim_pad_n
  | UMC_TSE_reslice_n
  | UMC_SEG_reslice_labels_n
  | UMC_register_MPRAGE_to_UMC_TSE_native_n
  | UMC_MPRAGE_reslice_n
  | UMC_normalise_TSE_n
  | UMC_normalise_MPRAGE_n
  | datasink
  deriving DecidableEq

structure WEdge where
  src : WNode
  srcField : String
  dst : WNode
  dstField : String
  deriving DecidableEq

/-- All `wf.connect(...)` calls of the preprocessing script, in source order
(lines 64-182 of `train_preprocess_nipypeline_UMC_20191011.py`). -/
def wfConnections : List WEdge :=
  [ -- line 64: infosource -> selectfiles
   ⟨WNode.infosource, "shorter_id", WNode.selectfiles, "shorter_id"⟩,
   ⟨WNode.infosource, "side_id", WNode.selectfiles, "side_id"⟩,
   -- line 67: infosource -> selecttemplates
   ⟨WNode.infosource, "side_id", WNode.selecttemplates, "side_id"⟩,
   -- line 85, step 1: selectfiles -> trim/pad
   ⟨WNode.selectfiles, "umc_tse_native", WNode.UMC_TSE_trim_pad_n, "in_file"⟩,
   -- lines 97-99, step 2: trim/pad and selectfiles -> TSE reslice
   ⟨WNode.UMC_TSE_trim_pad_n, "out_files", WNode.UMC_TSE_reslice_n, "in_file"⟩,
   ⟨WNode.selectfiles, "umc_tse_whole", WNode.UMC_TSE_reslice_n, "opt_in_file"⟩,
   -- lines 117-119, step 3: TSE reslice and selectfiles -> segmentation reslice
   ⟨WNode.UMC_TSE_reslice_n, "out_files", WNode.UMC_SEG_reslice_labels_n, "in_file"⟩,
   ⟨WNode.selectfiles, "umc_seg_native", WNode.UMC_SEG_reslice_labels_n, "ref_in_file"⟩,
   -- lines 129-130, step 4: both registration inputs come from selectfiles
   ⟨WNode.selectfiles, "umc_tse_native", WNode.UMC_register_MPRAGE_to_UMC_TSE_native_n, "fixed_image"⟩,
   ⟨WNode.selectfiles, "umc_mprage_chunk", WNode.UMC_register_MPRAGE_to_UMC_TSE_native_n, "moving_image"⟩,
   -- lines 141-143, step 5: TSE reslice and registration -> MPRAGE reslice
   ⟨WNode.UMC_TSE_reslice_n, "out_files", WNode.UMC_MPRAGE_reslice_n, "in_file"⟩,
   ⟨WNode.UMC_register_MPRAGE_to_UMC_TSE_native_n, "warped_image", WNode.UMC_MPRAGE_reslice_n, "opt_in_file"⟩,
   -- lines 155-156, step 6 (TSE): selecttemplates and TSE reslice -> TSE normalisation
   ⟨WNode.selecttemplates, "tse_inthist_template", WNode.UMC_normalise_TSE_n, "in_file"⟩,
   ⟨WNode.UMC_TSE_reslice_n, "out_files", WNode.UMC_normalise_TSE_n, "opt_in_file"⟩,
   -- lines 162-163, step 6 (MPRAGE): selecttemplates and MPRAGE reslice -> MPRAGE normalisation
   ⟨WNode.selecttemplates, "mprage_inthist_template", WNode.UMC_normalise_MPRAGE_n, "in_file"⟩,
   ⟨WNode.UMC_MPRAGE_reslice_n, "out_files", WNode.UMC_normalise_MPRAGE_n, "opt_in_file"⟩,
   -- lines 176-182: every processing step -> datasink
   ⟨WNode.UMC_TSE_trim_pad_n, "out_files", WNode.datasink, "UMC_TSE_native_trim_pad"⟩,
   ⟨WNode.UMC_TSE_reslice_n, "out_files", WNode.datasink, "UMC_TSE_native_reslice"⟩,
   ⟨WNode.UMC_SEG_reslice_labels_n, "out_files", WNode.datasink, "UMC_SEG_reslice_labels"⟩,
   ⟨WNode.UMC_register_MPRAGE_to_UMC_TSE_native_n, "warped_image", WNode.datasink, "UMC_register_MPRAGE_to_UMC_TSE_native_n"⟩,
   ⟨WNode.UMC_MPRAGE_reslice_n, "out_files", WNode.datasink, "UMC_MPRAGE_reslice_n"⟩,
   ⟨WNode.UMC_normalise_TSE_n, "out_files", WNode.datasink, "UMC_TSE_normalised"⟩,
   ⟨WNode.UMC_normalise_MPRAGE_n, "out_files", WNode.datasink, "UMC_MPRAGE_normalised"⟩]

/-- Source nodes of the connections that feed node `n`, in source order. -/
def wfPreds (n : WNode) : List WNode :=
  (wfConnections.filter (fun e => decide (e.dst = n))).map WEdge.src

-- Hard-coded configuration at the top of the script (lines 20-31).

def experiment_dir : String := "/data/fastertemp/uqmtottr/"

def github_dir : String := "/data/fastertemp/uqmtottr/DEEPSEACAT_atlas/"

def output_dir : String := "output_dir"

def working_dir : String := "Nipype_working_dir_20191014_UMC"

def side_list : List String := ["right", "left"]

/-- The process environment the script reads: its command-line arguments
(which the script never touches) and the directory listing that
`os.listdir(experiment_dir+'ashs_atlas_umcutrecht/train/')` returns. -/
structure ScriptEnv where
  argv : List String
  listdirTrain : List String
  deriving DecidableEq

/-- Python's `sorted` builtin applied to a list of strings. -/
def pySorted (l : List String) : List String :=
  l.mergeSort (fun a b => decide (a ≤ b))

/-- Line 31: `shorter_list = sorted(os.listdir(...))`. -/
def shorter_list (env : ScriptEnv) : List String :=
  pySorted env.listdirTrain

/-- File-path templates of the `selectfiles` node (lines 46-53). -/
def templates : List (String × String) :=
  [("umc_tse_native", "ashs_atlas_umcutrecht/train/{shorter_id}/tse_native_chunk_{side_id}.nii.gz"),
   ("umc_tse_whole", "ashs_atlas_umcutrecht/train/{shorter_id}/tse.nii.gz"),
   ("umc_seg_native", "ashs_atlas_umcutrecht/train/{shorter_id}/tse_native_chunk_{side_id}_seg.nii.gz"),
   ("umc_mprage_chunk", "ashs_atlas_umcutrecht/train/{shorter_id}/mprage_to_chunktemp_{side_id}.nii.gz")]

/-- File-path templates of the `selecttemplates` node (lines 56-58). -/
def bespoke_files : List (String × String) :=
  [("mprage_inthist_template", "{side_id}_mprage_template_resampled-0.35mmIso_rescaled_0meanUv_pad-176x144x128.nii.gz"),
   ("tse_inthist_template", "{side_id}_tse_template_resampled-0.35mmIso_rescaled_0meanUv_pad-176x144x128.nii.gz")]

/-- Configuration of the `DataSink` node (lines 172-174). -/
structure DataSinkConfig where
  base_directory : String
  container : String
  deriving DecidableEq

def datasink_config : DataSinkConfig :=
  ⟨experiment_dir ++ working_dir, output_dir⟩

/-- The static workflow the script hands to `wf.run()`. -/
structure WorkflowSpec where
  name : String
  base_dir : String
  iterables : List (String × List String)
  fileTemplates : List (String × String)
  bespokeTemplates : List (String × String)
  connections : List WEdge
  sink : DataSinkConfig
  deriving DecidableEq

/-- Everything the script builds before calling `wf.run()`, as a function of
the process environment.  The `argv` component of the environment is never
read anywhere in the script. -/
def buildWorkflow (env : ScriptEnv) : WorkflowSpec :=
  ⟨"Workflow_preprocess_DL_hippo",
   experiment_dir ++ working_dir,
   [("shorter_id", shorter_list env), ("side_id", side_list)],
   templates,
   bespoke_files,
   wfConnections,
   datasink_config⟩

/-! ## Keras layer graph built by `CAI-Unet/model.py`
A symbolic term of type `Layer` stands for a Keras tensor: each constructor
records one layer application together with the arguments the script passes.
`channels` mirrors `tensor._keras_shape[1]` under the script's
`channels_first` data format (line 18). -/

abbrev T3 := Nat × Nat × Nat

inductive Layer where
  | input (shape : List Nat)
  | conv3d (nFilters : Nat) (kernel : T3) (padding : String) (strides : T3) (dilation : Nat) (inp : Layer)
  | batchNorm (axis : Nat) (inp : Layer)
  | instanceNorm (axis : Nat) (inp : Layer)
  | activation (name : String) (inp : Layer)
  | upSampling3d (size : T3) (inp : Layer)
  | deconv3d (nFilters : Nat) (kernel : T3) (strides : T3) (inp : Layer)
  | concat2 (a : Layer) (b : Layer) (axis : Nat)
  | dropout (ratePercent : Nat) (inp : Layer)
  deriving DecidableEq

/-- `tensor._keras_shape[1]`: for `Input(input_shape)` the Keras shape is
`(None,) + input_shape`, so index 1 is the head of `input_shape`; a
convolution sets the channel axis to its filter count; an axis-1
concatenation adds the channel counts of its operands; the remaining layers
keep the channel count of their input. -/
def Layer.channels : Layer → Nat
  | Layer.input shape => shape.headD 0
  | Layer.conv3d n _ _ _ _ _ => n
  | Layer.batchNorm _ l => Layer.channels l
  | Layer.instanceNorm _ l => Layer.channels l
  | Layer.activation _ l => Layer.channels l
  | Layer.upSampling3d _ l => Layer.channels l
  | Layer.deconv3d n _ _ _ => n
  | Layer.concat2 a b _ => Layer.channels a + Layer.channels b
  | Layer.dropout _ l => Layer.channels l

/-- Filter count of the convolution a block is built around: peels the
activation / normalization wrappers a convolution block ends with and returns
the `n_filters` of the convolution underneath. -/
def Layer.convFilters : Layer → Option Nat
  | Layer.activation _ l => Layer.convFilters l
  | Layer.batchNorm _ l => Layer.convFilters l
  | Layer.instanceNorm _ l => Layer.convFilters l
  | Layer.conv3d n _ _ _ _ _ => some n
  | _ => none

/-- Name of the activation a layer term ends with, if any. -/
def Layer.topActivationName : Layer → Option String
  | Layer.activation n _ => some n
  | _ => none

def Layer.isUpConvNode : Layer → Bool
  | Layer.upSampling3d _ _ => true
  | Layer.deconv3d _ _ _ _ => true
  | _ => false

/-- `Layer.hasSkipConcat l s` holds when somewhere inside `l` there is an
axis-1 concatenation whose first operand is an up-convolution
(`UpSampling3D` or `Deconvolution3D`) and whose second operand is exactly the
layer `s` — i.e. a decoder skip connection onto `s`. -/
def Layer.hasSkipConcat : Layer → Layer → Bool
  | Layer.input _, _ => false
  | Layer.conv3d _ _ _ _ _ l, s => Layer.hasSkipConcat l s
  | Layer.batchNorm _ l, s => Layer.hasSkipConcat l s
  | Layer.instanceNorm _ l, s => Layer.hasSkipConcat l s
  | Layer.activation _ l, s => Layer.hasSkipConcat l s
  | Layer.upSampling3d _ l, s => Layer.hasSkipConcat l s
  | Layer.deconv3d _ _ _ l, s => Layer.hasSkipConcat l s
  | Layer.dropout _ l, s => Layer.hasSkipConcat l s
  | Layer.concat2 a b _, s =>
      (Layer.isUpConvNode a && decide (b = s)) || Layer.hasSkipConcat a s || Layer.hasSkipConcat b s

/-- Tail of `create_convolution_block` (lines 131-134 of model.py): when
`activation` is `None` the block ends with `Activation('relu')`, otherwise
with the given activation layer. -/
def ccbFinish : Option String → Layer → Layer
  | none, layer => Layer.activation "relu" layer
  | some a, layer => Layer.activation a layer

/-- `create_convolution_block` (model.py lines 109-134): a `Conv3D`, then —
if `batch_normalization` — a `BatchNormalization(axis=1)`, `elif
instance_normalization` an `InstanceNormalization(axis=1)`, then the
activation tail.  Keras `Conv3D` is built here without a `dilation_rate`
argument, so the dilation field is its default 1. -/
def create_convolution_block (input_layer : Layer) (n_filters : Nat)
    (batch_normalization : Bool) (kernel : T3) (activation : Option String)
    (padding : String) (strides : T3) (instance_normalization : Bool) : Layer :=
  ccbFinish activation
    (if batch_normalization then
       Layer.batchNorm 1 (Layer.conv3d n_filters kernel padding strides 1 input_layer)
     else if instance_normalization then
       Layer.instanceNorm 1 (Layer.conv3d n_filters kernel padding strides 1 input_layer)
     else Layer.conv3d n_filters kernel padding strides 1 input_layer)

/-- `get_up_convolution` (model.py lines 151-157), already applied to its
input tensor. -/
def get_up_convolution (n_filters : Nat) (pool_size : T3) (kernel_size : T3)
    (strides : T3) (deconvolution : Bool) (inp : Layer) : Layer :=
  if deconvolution then Layer.deconv3d n_filters kernel_size strides inp
  else Layer.upSampling3d pool_size inp

/-- One entry of the Python `levels` list (model.py lines 70 and 73):
`[layer1, layer2, current_layer]` at non-final encoder depths,
`[layer1, layer2]` at the deepest level. -/
structure EncLevel where
  layer1 : Layer
  layer2 : Layer
  pooled : Option Layer
  deriving DecidableEq

def defaultEncLevel : EncLevel := ⟨Layer.input [], Layer.input [], none⟩

/-- model.py line 62: the first convolution block of encoder level `d`. -/
def encLayer1 (n_base_filters : Nat) (bn : Bool) (d : Nat) (cur : Layer) : Layer :=
  create_convolution_block cur (n_base_filters * 2 ^ d) bn (3, 3, 3) none "same" (1, 1, 1) false

/-- model.py line 64: the second convolution block of encoder level `d`. -/
def encLayer2 (n_base_filters : Nat) (bn : Bool) (d : Nat) (cur : Layer) : Layer :=
  create_convolution_block (encLayer1 n_base_filters bn d cur) (n_base_filters * 2 ^ d * 2) bn
    (3, 3, 3) none "same" (1, 1, 1) false

/-- model.py line 68: the strided convolution that replaces max pooling. -/
def encPool (n_base_filters : Nat) (bn : Bool) (d : Nat) (cur : Layer) : Layer :=
  create_convolution_block (encLayer2 n_base_filters bn d cur) (n_base_filters * 2 ^ d) bn
    (3, 3, 3) none "same" (2, 2, 2) false

/-- The encoder loop `for layer_depth in range(depth)` of model.py
(lines 61-73), written as a recursion on the loop counter `d`; `cur` is
`current_layer` and `levels` the accumulated Python `levels` list. -/
def unetEncoder (n_base_filters : Nat) (bn : Bool) (depth : Nat) (d : Nat)
    (cur : Layer) (levels : List EncLevel) : Layer × List EncLevel :=
  if h : d < depth then
    if d < depth - 1 then
      unetEncoder n_base_filters bn depth (d + 1) (encPool n_base_filters bn d cur)
        (levels ++ [⟨encLayer1 n_base_filters bn d cur, encLayer2 n_base_filters bn d cur,
                     some (encPool n_base_filters bn d cur)⟩])
    else
      unetEncoder n_base_filters bn depth (d + 1) (encLayer2 n_base_filters bn d cur)
        (levels ++ [⟨encLayer1 n_base_filters bn d cur, encLayer2 n_base_filters bn d cur, none⟩])
  else (cur, levels)
termination_by depth - d

/-- model.py line 83: `concatenate([up_convolution, levels[layer_depth][1]],
axis=1)`, with the up-convolution of lines 78-79 built from
`current_layer._keras_shape[1]` filters. -/
def decConcat (pool_size : T3) (deconvolution : Bool) (lvl : EncLevel) (cur : Layer) : Layer :=
  Layer.concat2
    (get_up_convolution (Layer.channels cur) pool_size (2, 2, 2) (2, 2, 2) deconvolution cur)
    lvl.layer2 1

/-- model.py lines 85-89: the two convolution blocks a decoder level applies
after its skip concatenation, each with `levels[layer_depth][1]._keras_shape[1]`
filters. -/
def decBlocks (pool_size : T3) (deconvolution : Bool) (bn : Bool) (lvl : EncLevel)
    (cur : Layer) : Layer :=
  create_convolution_block
    (create_convolution_block (decConcat pool_size deconvolution lvl cur)
      (Layer.channels lvl.layer2) bn (3, 3, 3) none "same" (1, 1, 1) false)
    (Layer.channels lvl.layer2) bn (3, 3, 3) none "same" (1, 1, 1) false

/-- The decoder loop `for layer_depth in range(depth-2, -1, -1)` of model.py
(lines 77-89): with fuel `f + 1` the next processed index is `f`, so calling
with fuel `depth - 1` walks `layer_depth = depth-2, ..., 0` exactly as the
Python loop does. -/
def unetDecoder (pool_size : T3) (deconvolution : Bool) (bn : Bool)
    (levels : List EncLevel) : Nat → Layer → Layer
  | 0, cur => cur
  | f + 1, cur =>
      unetDecoder pool_size deconvolution bn levels f
        (decBlocks pool_size deconvolution bn (levels.getD f defaultEncLevel) cur)

/-- The `levels` list as produced by the encoder loop starting from
`Input(input_shape)`. -/
def unetLevels (n_base_filters : Nat) (bn : Bool) (depth : Nat) (input_shape : List Nat) :
    List EncLevel :=
  (unetEncoder n_base_filters bn depth 0 (Layer.input input_shape) []).2

/-- The metrics the script may pass to `model.compile`. `dice_coefficient`
and the per-label functions produced by
`get_label_dice_coefficient_function(index)` are imported from the `Metrics`
module, which is not part of this repository; they are represented opaquely
by name. -/
inductive Metric where
  | dice_coefficient
  | label_wise_dice (index : Nat)
  deriving DecidableEq

/-- The `metrics` argument of `unet_model_3d`: either a Python list of
metrics or a single non-list metric. -/
inductive MetricsArg where
  | single (m : Metric)
  | list (ms : List Metric)
  deriving DecidableEq

/-- model.py lines 95-96: `if not isinstance(metrics, list): metrics = [metrics]`. -/
def pyListOf : MetricsArg → List Metric
  | MetricsArg.single m => [m]
  | MetricsArg.list ms => ms

/-- model.py lines 95-103: wrap a non-list argument, then — when
`include_label_wise_dice_coefficients and n_labels > 1` — extend with one
per-label Dice metric for each index in `range(n_labels)` (replacing the list
when it was empty, since an empty Python list is falsy). -/
def unetMetrics (metrics : MetricsArg) (include_label_wise_dice_coefficients : Bool)
    (n_labels : Nat) : List Metric :=
  if include_label_wise_dice_coefficients && decide (1 < n_labels) then
    if (pyListOf metrics).isEmpty then (List.range n_labels).map Metric.label_wise_dice
    else pyListOf metrics ++ (List.range n_labels).map Metric.label_wise_dice
  else pyListOf metrics

/-- The loss object passed to `model.compile` (line 105):
`dice_coefficient_loss`, imported from the absent `Metrics` module and
represented opaquely by name. -/
inductive LossFn where
  | dice_coefficient_loss
  deriving DecidableEq

/-- What `model.compile(optimizer=Adam(lr=...), loss=..., metrics=...)`
records on the model. -/
structure CompileInfo where
  learning_rate : Rat
  loss : LossFn
  metrics : List Metric
  deriving DecidableEq

/-- A Keras `Model`: its input and output tensors, and — once `compile` has
been invoked on it — the recorded compilation settings. -/
structure KModel where
  inputs : Layer
  outputs : Layer
  compileInfo : Option CompileInfo
  deriving DecidableEq

/-- `model.compile(...)` (model.py line 105). -/
def KModel.compile (m : KModel) (lr : Rat) (loss : LossFn) (metrics : List Metric) : KModel :=
  ⟨m.inputs, m.outputs, some ⟨lr, loss, metrics⟩⟩

/-- `unet_model_3d` (model.py lines 26-106): build the encoder from
`Input(input_shape)`, run the decoder over the recorded levels, apply the
final `Conv3D(n_labels, (1,1,1))` (Keras default padding `valid`, strides
`(1,1,1)`, dilation 1) and `Activation(activation_name)`, construct the
model, and compile it with `Adam(lr=initial_learning_rate)`,
`dice_coefficient_loss` and the computed metrics list. -/
def unet_model_3d (input_shape : List Nat) (pool_size : T3) (n_labels : Nat)
    (initial_learning_rate : Rat) (deconvolution : Bool) (depth : Nat)
    (n_base_filters : Nat) (include_label_wise_dice_coefficients : Bool)
    (metrics : MetricsArg) (batch_normalization : Bool) (activation_name : String) : KModel :=
  KModel.compile
    ⟨Layer.input input_shape,
     Layer.activation activation_name
       (Layer.conv3d n_labels (1, 1, 1) "valid" (1, 1, 1) 1
         (unetDecoder pool_size deconvolution batch_normalization
           (unetLevels n_base_filters batch_normalization depth input_shape)
           (depth - 1)
           (unetEncoder n_base_filters batch_normalization depth 0 (Layer.input input_shape) []).1)),
     none⟩
    initial_learning_rate
    LossFn.dice_coefficient_loss
    (unetMetrics metrics include_label_wise_dice_coefficients n_labels)

/-! ## Python failure modes of model.py
`PyErr` covers the exceptions relevant to the claims; fallible Python code is
embedded as `Except PyErr`.  Python's call-argument binding and its name
lookup are modelled explicitly, because the dilated-convolution helpers of
model.py fail at exactly those two points. -/

inductive PyErr where
  | typeError
  | nameError
  | importError (msg : String)
  deriving DecidableEq

/-- One parameter of a Python `def`: its name and whether it has a default. -/
structure ParamSpec where
  name : String
  hasDefault : Bool
  deriving DecidableEq

/-- Python call-argument binding for a call with `positionalCount` positional
arguments and the listed keyword names, against a parameter list (no `*args`
or `**kwargs` involved anywhere in model.py): too many positional arguments,
a keyword colliding with a positionally filled parameter, an unknown keyword,
or a parameter left without a value and without a default each raise
`TypeError` before the function body runs. -/
def bindCall (params : List ParamSpec) (positionalCount : Nat) (keywords : List String) :
    Except PyErr Unit :=
  if params.length < positionalCount then Except.error PyErr.typeError
  else if keywords.any (fun k => (params.take positionalCount).any (fun p => p.name == k)) then
    Except.error PyErr.typeError
  else if keywords.any (fun k => params.all (fun p => p.name != k)) then
    Except.error PyErr.typeError
  else if (params.drop positionalCount).any
      (fun p => !p.hasDefault && !(keywords.contains p.name)) then
    Except.error PyErr.typeError
  else Except.ok ()

/-- Names bound at module level in model.py: the imports of lines 10-16
(plus `concatenate` from the lines 20-23 fallback) and the five function
definitions.  `layer_depth` is not among them. -/
def moduleScopeNames : List String :=
  ["np", "K", "Input", "Model", "Conv3D", "UpSampling3D", "Activation",
   "BatchNormalization", "PReLU", "Deconvolution3D", "Dropout", "Adam",
   "dice_coefficient_loss", "get_label_dice_coefficient_function",
   "dice_coefficient", "concatenate", "unet_model_3d",
   "create_convolution_block", "compute_level_output_shape",
   "get_up_convolution", "create_dilated_fusion_block", "dilated_couple",
   "dilated_conv"]

/-- Python name lookup: a name must be a local (parameter or assigned name)
of the executing function or a module-level name, otherwise `NameError`.
The returned value itself is not modelled (the only lookup performed in this
file is of a name that is absent, so the `ok` branch never carries
information). -/
def lookupName (localNames : List String) (n : String) : Except PyErr Nat :=
  if localNames.contains n || moduleScopeNames.contains n then Except.ok 0
  else Except.error PyErr.nameError

/-- Parameters of `dilated_conv` (model.py lines 189-190): `input_layer`,
`n_filters` and `dilation_rate` have no default. -/
def dilated_conv_params : List ParamSpec :=
  [⟨"input_layer", false⟩, ⟨"n_filters", false⟩, ⟨"dilation_rate", false⟩,
   ⟨"batch_normalization", true⟩, ⟨"kernel", true⟩, ⟨"activation", true⟩,
   ⟨"padding", true⟩, ⟨"strides", true⟩, ⟨"instance_normalization", true⟩,
   ⟨"dropout", true⟩]

/-- Parameters of `dilated_couple` (model.py lines 171-172). -/
def dilated_couple_params : List ParamSpec :=
  [⟨"input_layer", false⟩, ⟨"n_filters", false⟩, ⟨"dilation_rate", false⟩,
   ⟨"batch_normalization", true⟩, ⟨"kernel", true⟩, ⟨"activation", true⟩,
   ⟨"padding", true⟩, ⟨"strides", true⟩, ⟨"instance_normalization", true⟩,
   ⟨"dropout", true⟩]

/-- Locals of `dilated_couple`: its parameters and the names its body
assigns.  `layer_depth` is not among them. -/
def dilated_couple_localNames : List String :=
  ["input_layer", "n_filters", "dilation_rate", "batch_normalization",
   "kernel", "activation", "padding", "strides", "instance_normalization",
   "dropout", "layer", "concat", "final_layer"]

/-- `dilated_conv` (model.py lines 189-204): a `Conv3D` carrying the given
`dilation_rate`, the same normalization choice as `create_convolution_block`,
and the same activation tail.  Its `dropout` parameter is never used by the
body, exactly as in the source. -/
def dilated_conv (input_layer : Layer) (n_filters : Nat) (dilation_rate : Nat)
    (batch_normalization : Bool) (kernel : T3) (activation : Option String)
    (padding : String) (strides : T3) (instance_normalization : Bool)
    (dropout : Bool) : Layer :=
  ccbFinish activation
    (if batch_normalization then
       Layer.batchNorm 1 (Layer.conv3d n_filters kernel padding strides dilation_rate input_layer)
     else if instance_normalization then
       Layer.instanceNorm 1 (Layer.conv3d n_filters kernel padding strides dilation_rate input_layer)
     else Layer.conv3d n_filters kernel padding strides dilation_rate input_layer)

/-- `dilated_couple` (model.py lines 171-186).  Its first statement
(line 174) is
`dilated_conv(n_filters, kernel=(1,1,1), padding=padding, strides=strides, dilation_rate=dilation_rate)(input_layer)`:
one positional argument and four keywords, so `dilated_conv`'s required
`n_filters` parameter receives no value and Python raises `TypeError` at the
call, before any layer is constructed.  Line 175 would next read the name
`layer_depth`, which is bound neither in the function nor at module level
(`NameError`), but execution never gets that far.  Everything after the
`bindCall` line is unreachable; it transcribes the intent of lines 174-186
(the dropout rate is recorded in hundredths, 50 for the Python `0.5`). -/
def dilated_couple (input_layer : Layer) (n_filters : Nat) (dilation_rate : Nat)
    (batch_normalization : Bool) (kernel : T3) (activation : Option String)
    (padding : String) (strides : T3) (instance_normalization : Bool)
    (dropout : Nat) : Except PyErr Layer := do
  let _ ← bindCall dilated_conv_params 1 ["kernel", "padding", "strides", "dilation_rate"]
  let layer_depth ← lookupName dilated_couple_localNames "layer_depth"
  let layer := dilated_conv input_layer n_filters dilation_rate false (1, 1, 1) none padding strides false false
  let layer := dilated_conv layer (n_filters / 2 ^ layer_depth) dilation_rate false kernel none padding strides false false
  let layer := Layer.dropout dropout layer
  let concat := Layer.concat2 layer input_layer 1
  let layer2 := dilated_conv concat n_filters dilation_rate false (1, 1, 1) none padding strides false false
  let layer2 := dilated_conv layer2 (n_filters / 2 ^ layer_depth) dilation_rate false kernel none padding strides false false
  let layer2 := Layer.dropout dropout layer2
  return Layer.concat2 layer2 concat 1

/-- The loop of `create_dilated_fusion_block` (model.py lines 162-166).  Per
iteration the script calls
`dilated_couple(n_filters, kernel, padding=padding, strides=strides, dilation_rate=2**dil_rate, dropout=0.5)`:
that binding succeeds (the filter count lands in `dilated_couple`'s
`input_layer` parameter and the kernel tuple in its `n_filters` — a further
slip), and `dilated_couple` then fails before reading any of its parameters,
so the Lean call below passes the layer and the filter count directly without
changing the observable result. -/
def create_dilated_fusion_block_loop (input_layer : Layer) (n_filters : Nat) (kernel : T3)
    (padding : String) (strides : T3) : List Nat → Layer → Except PyErr Layer
  | [], layer => Except.ok layer
  | dil_rate :: rest, layer =>
      if dil_rate == 0 then do
        let _ ← bindCall dilated_couple_params 2 ["padding", "strides", "dilation_rate", "dropout"]
        let l ← dilated_couple input_layer n_filters (2 ^ dil_rate) false kernel none padding strides false 50
        create_dilated_fusion_block_loop input_layer n_filters kernel padding strides rest l
      else do
        let _ ← bindCall dilated_couple_params 2 ["padding", "strides", "dilation_rate", "dropout"]
        let l ← dilated_couple layer n_filters (2 ^ dil_rate) false kernel none padding strides false 50
        create_dilated_fusion_block_loop input_layer n_filters kernel padding strides rest l

/-- `create_dilated_fusion_block` (model.py lines 159-166): run the loop over
`range(dilation_depth)`; the function body contains no `return` statement, so
a completed loop returns Python `None` (`Except.ok none`).  The initial
`layer` value passed to the loop stands for Python's still-unbound `layer`
variable; a first iteration always takes the `dil_rate == 0` branch, which
does not read it, and with an empty loop it is never used at all. -/
def create_dilated_fusion_block (input_layer : Layer) (n_filters : Nat)
    (dilation_depth : Nat) (batch_normalization : Bool) (kernel : T3)
    (activation : Option String) (padding : String) (strides : T3)
    (instance_normalization : Bool) : Except PyErr (Option Layer) := do
  let _ ← create_dilated_fusion_block_loop input_layer n_filters kernel padding strides
    (List.range dilation_depth) input_layer
  return none

/-! ## Import-time exception handling in model.py -/

/-- Where the module-level `concatenate` binding can come from. -/
inductive ConcatSource where
  | kerasEngineMerge
  | kerasLayersMergeConcatenate
  deriving DecidableEq

/-- The raw `from keras.engine import merge` of line 21: raises `ImportError`
when the installed Keras no longer exports `merge` there. -/
def importMergeRaw (kerasEngineHasMerge : Bool) : Except PyErr ConcatSource :=
  if kerasEngineHasMerge then Except.ok ConcatSource.kerasEngineMerge
  else Except.error (PyErr.importError "cannot import name merge from keras.engine")

/-- model.py lines 20-23: `try: from keras.engine import merge except
ImportError: from keras.layers.merge import concatenate`.  The framework's
`ImportError` is caught and the module recovers by importing `concatenate`
from its newer location instead. -/
def importConcatenate (kerasEngineHasMerge : Bool) : Except PyErr ConcatSource :=
  match importMergeRaw kerasEngineHasMerge with
  | Except.ok r => Except.ok r
  | Except.error _ => Except.ok ConcatSource.kerasLayersMergeConcatenate

/-- The raw `from keras_contrib.layers.normalization import
InstanceNormalization` of line 126. -/
def importInstanceNormalizationRaw (kerasContribInstalled : Bool) : Except PyErr Unit :=
  if kerasContribInstalled then Except.ok ()
  else Except.error (PyErr.importError "No module named keras_contrib")

/-- model.py lines 125-129 (inside `create_convolution_block`, reached only
under `instance_normalization=True`): the framework's `ImportError` is caught
and re-raised as a new `ImportError` carrying installation instructions. -/
def importInstanceNormalization (kerasContribInstalled : Bool) : Except PyErr Unit :=
  match importInstanceNormalizationRaw kerasContribInstalled with
  | Except.ok r => Except.ok r
  | Except.error _ =>
      Except.error (PyErr.importError
        "Install keras_contrib in order to use instance normalization.\nTry: pip install git+https://www.github.com/farizrahman4u/keras-contrib.git")

/-- model.py lines 195-199 (inside `dilated_conv`, reached only under
`instance_normalization=True`): a third `try/except ImportError` block,
textually identical to the one in `create_convolution_block` — the
framework's `ImportError` is again caught and re-raised as a new
`ImportError` carrying the same installation instructions. -/
def importInstanceNormalizationInDilatedConv (kerasContribInstalled : Bool) : Except PyErr Unit :=
  match importInstanceNormalizationRaw kerasContribInstalled with
  | Except.ok r => Except.ok r
  | Except.error _ =>
      Except.error (PyErr.importError
        "Install keras_contrib in order to use instance normalization.\nTry: pip install git+https://www.github.com/farizrahman4u/keras-contrib.git")

/-! ## Helper lemmas -/

theorem ccb_convFilters (inp : Layer) (nf : Nat) (bn : Bool) (k : T3)
    (a : Option String) (pad : String) (st : T3) (inst : Bool) :
    Layer.convFilters (create_convolution_block inp nf bn k a pad st inst) = some nf := by
  cases a <;> cases bn <;> cases inst <;> rfl

theorem ccb_hasSkipConcat (inp : Layer) (nf : Nat) (bn : Bool) (k : T3)
    (a : Option String) (pad : String) (st : T3) (inst : Bool) (s : Layer) :
    Layer.hasSkipConcat (create_convolution_block inp nf bn k a pad st inst) s =
      Layer.hasSkipConcat inp s := by
  cases a <;> cases bn <;> cases inst <;> rfl

/-- The encoder loop only ever appends to the accumulated `levels` list. -/
theorem unetEncoder_extends (nbf : Nat) (bn : Bool) (depth : Nat) :
    ∀ fuel d cur acc, depth - d ≤ fuel →
      ∃ t, (unetEncoder nbf bn depth d cur acc).2 = acc ++ t := by
  intro fuel
  induction fuel with
  | zero =>
    intro d cur acc hf
    have hd : ¬ d < depth := by omega
    rw [unetEncoder, dif_neg hd]
    exact ⟨[], (List.append_nil acc).symm⟩
  | succ n ih =>
    intro d cur acc hf
    by_cases hd : d < depth
    · rw [unetEncoder, dif_pos hd]
      by_cases hd2 : d < depth - 1
      · rw [if_pos hd2]
        obtain ⟨t, ht⟩ := ih (d + 1) (encPool nbf bn d cur)
          (acc ++ [⟨encLayer1 nbf bn d cur, encLayer2 nbf bn d cur, some (encPool nbf bn d cur)⟩])
          (by omega)
        exact ⟨[⟨encLayer1 nbf bn d cur, encLayer2 nbf bn d cur, some (encPool nbf bn d cur)⟩] ++ t,
          by rw [ht, List.append_assoc]⟩
      · rw [if_neg hd2]
        obtain ⟨t, ht⟩ := ih (d + 1) (encLayer2 nbf bn d cur)
          (acc ++ [⟨encLayer1 nbf bn d cur, encLayer2 nbf bn d cur, none⟩]) (by omega)
        exact ⟨[⟨encLayer1 nbf bn d cur, encLayer2 nbf bn d cur, none⟩] ++ t,
          by rw [ht, List.append_assoc]⟩
    · rw [unetEncoder, dif_neg hd]
      exact ⟨[], (List.append_nil acc).symm⟩

/-- Reading the accumulated list right where the encoder just appended. -/
theorem getD_snoc_append (acc : List EncLevel) (lvl : EncLevel) (t : List EncLevel)
    (d : Nat) (hl : acc.length = d) :
    ((acc ++ [lvl]) ++ t).getD d defaultEncLevel = lvl := by
  rw [List.getD_append (acc ++ [lvl]) t defaultEncLevel d (by simp [hl])]
  rw [List.getD_append_right acc [lvl] defaultEncLevel d (by omega)]
  simp [hl]

/-- Every level the encoder loop records at index `i` has a first convolution
block of `n_base_filters * 2 ^ i` filters and a second of twice that. -/
theorem unetEncoder_filters (nbf : Nat) (bn : Bool) (depth : Nat) :
    ∀ fuel d cur acc, depth - d ≤ fuel → acc.length = d →
      ∀ i, d ≤ i → i < depth →
        Layer.convFilters ((unetEncoder nbf bn depth d cur acc).2.getD i defaultEncLevel).layer1
            = some (nbf * 2 ^ i)
        ∧ Layer.convFilters ((unetEncoder nbf bn depth d cur acc).2.getD i defaultEncLevel).layer2
            = some (nbf * 2 ^ i * 2) := by
  intro fuel
  induction fuel with
  | zero => intro d cur acc hf hl i hdi hid; omega
  | succ n ih =>
    intro d cur acc hf hl i hdi hid
    have hd : d < depth := Nat.lt_of_le_of_lt hdi hid
    rw [unetEncoder, dif_pos hd]
    rcases Nat.eq_or_lt_of_le hdi with heq | hlt
    · -- i = d: the recorded level is the one built in this iteration
      subst heq
      by_cases hd2 : d < depth - 1
      · rw [if_pos hd2]
        obtain ⟨t, ht⟩ := unetEncoder_extends nbf bn depth n (d + 1) (encPool nbf bn d cur)
          (acc ++ [⟨encLayer1 nbf bn d cur, encLayer2 nbf bn d cur, some (encPool nbf bn d cur)⟩])
          (by omega)
        rw [ht, getD_snoc_append acc _ t d hl]
        exact ⟨ccb_convFilters cur (nbf * 2 ^ d) bn (3, 3, 3) none "same" (1, 1, 1) false,
          ccb_convFilters (encLayer1 nbf bn d cur) (nbf * 2 ^ d * 2) bn (3, 3, 3) none "same" (1, 1, 1) false⟩
      · rw [if_neg hd2]
        obtain ⟨t, ht⟩ := unetEncoder_extends nbf bn depth n (d + 1) (encLayer2 nbf bn d cur)
          (acc ++ [⟨encLayer1 nbf bn d cur, encLayer2 nbf bn d cur, none⟩]) (by omega)
        rw [ht, getD_snoc_append acc _ t d hl]
        exact ⟨ccb_convFilters cur (nbf * 2 ^ d) bn (3, 3, 3) none "same" (1, 1, 1) false,
          ccb_convFilters (encLayer1 nbf bn d cur) (nbf * 2 ^ d * 2) bn (3, 3, 3) none "same" (1, 1, 1) false⟩
    · -- i > d: the level is recorded by a later iteration
      by_cases hd2 : d < depth - 1
      · rw [if_pos hd2]
        exact ih (d + 1) (encPool nbf bn d cur)
          (acc ++ [⟨encLayer1 nbf bn d cur, encLayer2 nbf bn d cur, some (encPool nbf bn d cur)⟩])
          (by omega) (by simp [hl]) i hlt hid
      · rw [if_neg hd2]
        exact ih (d + 1) (encLayer2 nbf bn d cur)
          (acc ++ [⟨encLayer1 nbf bn d cur, encLayer2 nbf bn d cur, none⟩])
          (by omega) (by simp [hl]) i hlt hid

/-- What the skip-concatenation predicate sees on one decoder level: the
level's concat node pairs an up-convolution with `lvl.layer2`. -/
theorem decBlocks_hasSkipConcat (pool_size : T3) (dc bn : Bool) (lvl : EncLevel)
    (cur s : Layer) :
    Layer.hasSkipConcat (decBlocks pool_size dc bn lvl cur) s =
      (decide (lvl.layer2 = s) || Layer.hasSkipConcat cur s || Layer.hasSkipConcat lvl.layer2 s) := by
  unfold decBlocks
  rw [ccb_hasSkipConcat, ccb_hasSkipConcat]
  unfold decConcat
  cases dc <;> simp [get_up_convolution, Layer.hasSkipConcat, Layer.isUpConvNode]

theorem decBlocks_hasSkipConcat_self (pool_size : T3) (dc bn : Bool) (lvl : EncLevel)
    (cur : Layer) :
    Layer.hasSkipConcat (decBlocks pool_size dc bn lvl cur) lvl.layer2 = true := by
  rw [decBlocks_hasSkipConcat]
  simp

theorem decBlocks_hasSkipConcat_mono (pool_size : T3) (dc bn : Bool) (lvl : EncLevel)
    (cur s : Layer) (h : Layer.hasSkipConcat cur s = true) :
    Layer.hasSkipConcat (decBlocks pool_size dc bn lvl cur) s = true := by
  rw [decBlocks_hasSkipConcat, h]
  simp

/-- Skip concatenations already present survive the remaining decoder levels. -/
theorem unetDecoder_mono (pool_size : T3) (dc bn : Bool) (levels : List EncLevel) :
    ∀ fuel cur s, Layer.hasSkipConcat cur s = true →
      Layer.hasSkipConcat (unetDecoder pool_size dc bn levels fuel cur) s = true := by
  intro fuel
  induction fuel with
  | zero => intro cur s h; exact h
  | succ f ih =>
    intro cur s h
    exact ih _ s (decBlocks_hasSkipConcat_mono pool_size dc bn _ cur s h)

/-- The decoder run with fuel `f` produces, for every index `d < f`, a skip
concatenation onto `levels[d].layer2`. -/
theorem unetDecoder_skip (pool_size : T3) (dc bn : Bool) (levels : List EncLevel) :
    ∀ fuel cur d, d < fuel →
      Layer.hasSkipConcat (unetDecoder pool_size dc bn levels fuel cur)
        ((levels.getD d defaultEncLevel).layer2) = true := by
  intro fuel
  induction fuel with
  | zero => intro cur d h; omega
  | succ f ih =>
    intro cur d h
    rcases Nat.lt_succ_iff_lt_or_eq.mp h with hlt | heq
    · exact ih _ d hlt
    · subst heq
      exact unetDecoder_mono pool_size dc bn levels d _ _
        (decBlocks_hasSkipConcat_self pool_size dc bn _ cur)

/-! ## Claims -/

/-- C1 counterexample: no connection of the workflow feeds the registration
node from the TSE reslice node, so the registration step does not consume the
output of the preceding reslice step and the graph is not the claimed
straight line. -/
theorem C1_register_does_not_consume_reslice :
    (wfConnections.any (fun e =>
        decide (e.src = WNode.UMC_TSE_reslice_n)
          && decide (e.dst = WNode.UMC_register_MPRAGE_to_UMC_TSE_native_n))) = false := by
  decide

/-- C1 (amended): the preprocessing graph is a DAG rather than a straight
line.  Trim/pad reads from selectfiles; the TSE reslice reads from trim/pad
and selectfiles; the segmentation reslice reads from the TSE reslice and
selectfiles, and its output goes only to the datasink; the registration node
takes both of its inputs (fixed and moving image) directly from selectfiles;
the MPRAGE reslice reads from the TSE reslice and the registration; the two
histogram-normalisation nodes read from selecttemplates and the TSE / MPRAGE
reslice outputs. -/
theorem C1_registration_inputs :
    wfPreds WNode.UMC_TSE_trim_pad_n = [WNode.selectfiles]
    ∧ wfPreds WNode.UMC_TSE_reslice_n = [WNode.UMC_TSE_trim_pad_n, WNode.selectfiles]
    ∧ wfPreds WNode.UMC_SEG_reslice_labels_n = [WNode.UMC_TSE_reslice_n, WNode.selectfiles]
    ∧ wfConnections.filter (fun e => decide (e.dst = WNode.UMC_register_MPRAGE_to_UMC_TSE_native_n))
        = [⟨WNode.selectfiles, "umc_tse_native", WNode.UMC_register_MPRAGE_to_UMC_TSE_native_n, "fixed_image"⟩,
           ⟨WNode.selectfiles, "umc_mprage_chunk", WNode.UMC_register_MPRAGE_to_UMC_TSE_native_n, "moving_image"⟩]
    ∧ wfPreds WNode.UMC_MPRAGE_reslice_n
        = [WNode.UMC_TSE_reslice_n, WNode.UMC_register_MPRAGE_to_UMC_TSE_native_n]
    ∧ wfPreds WNode.UMC_normalise_TSE_n = [WNode.selecttemplates, WNode.UMC_TSE_reslice_n]
    ∧ wfPreds WNode.UMC_normalise_MPRAGE_n = [WNode.selecttemplates, WNode.UMC_MPRAGE_reslice_n]
    ∧ wfConnections.filter (fun e => decide (e.src = WNode.UMC_SEG_reslice_labels_n))
        = [⟨WNode.UMC_SEG_reslice_labels_n, "out_files", WNode.datasink, "UMC_SEG_reslice_labels"⟩] := by
  decide

/-- C2: for every depth ≥ 1 and every `n_base_filters`, the encoder level
`d` of the model built by `unet_model_3d` consists of a first convolution
block of `n_base_filters * 2 ^ d` filters and a second of
`n_base_filters * 2 ^ d * 2` filters, and for every decoder level `d` the
model's output graph contains a concatenation of an up-convolution with the
second convolution block of encoder level `d` (a skip connection at matching
depth). -/
theorem C2_encoder_filters_and_skip_connections (input_shape : List Nat) (pool_size : T3)
    (n_labels : Nat) (lr : Rat) (deconv : Bool) (depth n_base_filters : Nat) (ilw : Bool)
    (metrics : MetricsArg) (bn : Bool) (act : String) (hdepth : 1 ≤ depth) (d : Nat)
    (hd : d < depth) :
    Layer.convFilters ((unetLevels n_base_filters bn depth input_shape).getD d defaultEncLevel).layer1
        = some (n_base_filters * 2 ^ d)
    ∧ Layer.convFilters ((unetLevels n_base_filters bn depth input_shape).getD d defaultEncLevel).layer2
        = some (n_base_filters * 2 ^ d * 2)
    ∧ (d < depth - 1 →
        Layer.hasSkipConcat
          (unet_model_3d input_shape pool_size n_labels lr deconv depth n_base_filters ilw metrics bn act).outputs
          (((unetLevels n_base_filters bn depth input_shape).getD d defaultEncLevel).layer2) = true) := by
  refine ⟨?_, ?_, ?_⟩
  · exact (unetEncoder_filters n_base_filters bn depth depth 0 (Layer.input input_shape) []
      (by omega) rfl d (Nat.zero_le d) hd).1
  · exact (unetEncoder_filters n_base_filters bn depth depth 0 (Layer.input input_shape) []
      (by omega) rfl d (Nat.zero_le d) hd).2
  · intro hlt
    exact unetDecoder_skip pool_size deconv bn (unetLevels n_base_filters bn depth input_shape)
      (depth - 1) (unetEncoder n_base_filters bn depth 0 (Layer.input input_shape) []).1 d hlt

/-- C2 witness: the filter counts and the depth-0 skip connection, evaluated
on a concrete model of depth 2 with 4 base filters. -/
theorem C2_witness :
    (1 ≤ 2) ∧ (0 < 2) ∧ (0 < 2 - 1)
    ∧ Layer.convFilters ((unetLevels 4 false 2 [1, 16, 16, 16]).getD 0 defaultEncLevel).layer1
        = some (4 * 2 ^ 0)
    ∧ Layer.convFilters ((unetLevels 4 false 2 [1, 16, 16, 16]).getD 0 defaultEncLevel).layer2
        = some (4 * 2 ^ 0 * 2)
    ∧ Layer.hasSkipConcat
        (unet_model_3d [1, 16, 16, 16] (2, 2, 2) 2 1 false 2 4 false
          (MetricsArg.single Metric.dice_coefficient) false "sigmoid").outputs
        (((unetLevels 4 false 2 [1, 16, 16, 16]).getD 0 defaultEncLevel).layer2) = true :=
  ⟨by decide, by decide, by decide,
   (C2_encoder_filters_and_skip_connections [1, 16, 16, 16] (2, 2, 2) 2 1 false 2 4 false
     (MetricsArg.single Metric.dice_coefficient) false "sigmoid" (by decide) 0 (by decide)).1,
   (C2_encoder_filters_and_skip_connections [1, 16, 16, 16] (2, 2, 2) 2 1 false 2 4 false
     (MetricsArg.single Metric.dice_coefficient) false "sigmoid" (by decide) 0 (by decide)).2.1,
   (C2_encoder_filters_and_skip_connections [1, 16, 16, 16] (2, 2, 2) 2 1 false 2 4 false
     (MetricsArg.single Metric.dice_coefficient) false "sigmoid" (by decide) 0 (by decide)).2.2
     (by decide)⟩

/-- C3: for every argument tuple, `unet_model_3d` returns a model on which
`compile` has been invoked: the returned object carries compilation
settings, not an uncompiled graph. -/
theorem C3_unet_model_compiled (input_shape : List Nat) (pool_size : T3) (n_labels : Nat)
    (lr : Rat) (deconv : Bool) (depth n_base_filters : Nat) (ilw : Bool)
    (metrics : MetricsArg) (bn : Bool) (act : String) :
    (unet_model_3d input_shape pool_size n_labels lr deconv depth n_base_filters ilw
      metrics bn act).compileInfo.isSome = true :=
  rfl

/-- C4 counterexample: when `keras.engine` no longer exports `merge`, the
framework raises an `ImportError`, and model.py's lines 20-23 catch it and
recover by importing `concatenate` instead — a framework failure that does
not propagate unhandled to the process boundary, against the claim that the
scripts contain no error-handling logic. -/
theorem C4_counterexample_merge_import :
    importMergeRaw false = Except.error (PyErr.importError "cannot import name merge from keras.engine")
    ∧ importConcatenate false = Except.ok ConcatSource.kerasLayersMergeConcatenate := by
  constructor
  · rfl
  · rfl

/-- C4 (amended): the only error handling in the repository is the three
import-time `try/except ImportError` blocks of model.py: the merge import of
lines 20-23 falls back to `keras.layers.merge.concatenate` and so never
propagates an error, and a missing `keras_contrib` under instance
normalization is caught and re-raised as an `ImportError` carrying
installation instructions by the two textually identical blocks at
lines 125-129 (in `create_convolution_block`) and lines 195-199 (in
`dilated_conv`), which behave identically on every environment; none of the
three performs a retry, and the preprocessing script and all remaining code
paths let failures propagate. -/
theorem C4_import_fallback_handles_error :
    (∀ b, importConcatenate b =
      Except.ok (if b then ConcatSource.kerasEngineMerge else ConcatSource.kerasLayersMergeConcatenate))
    ∧ importInstanceNormalization true = Except.ok ()
    ∧ importInstanceNormalization false =
        Except.error (PyErr.importError
          "Install keras_contrib in order to use instance normalization.\nTry: pip install git+https://www.github.com/farizrahman4u/keras-contrib.git")
    ∧ importInstanceNormalizationInDilatedConv true = Except.ok ()
    ∧ importInstanceNormalizationInDilatedConv false =
        Except.error (PyErr.importError
          "Install keras_contrib in order to use instance normalization.\nTry: pip install git+https://www.github.com/farizrahman4u/keras-contrib.git")
    ∧ (∀ b, importInstanceNormalizationInDilatedConv b = importInstanceNormalization b) := by
  refine ⟨?_, rfl, rfl, rfl, rfl, ?_⟩
  · intro b
    cases b <;> rfl
  · intro b
    cases b <;> rfl

/-- C5: the pipeline's outputs are all routed to the single datasink node:
the connections into the datasink are exactly one per processing step — steps
1 to 5 plus the two step-6 normalisation nodes — each into its own named
subfolder, the seven subfolder names are pairwise distinct, and the datasink
is rooted at the fixed output directory. -/
theorem C5_datasink_routing :
    wfConnections.filter (fun e => decide (e.dst = WNode.datasink))
      = [⟨WNode.UMC_TSE_trim_pad_n, "out_files", WNode.datasink, "UMC_TSE_native_trim_pad"⟩,
         ⟨WNode.UMC_TSE_reslice_n, "out_files", WNode.datasink, "UMC_TSE_native_reslice"⟩,
         ⟨WNode.UMC_SEG_reslice_labels_n, "out_files", WNode.datasink, "UMC_SEG_reslice_labels"⟩,
         ⟨WNode.UMC_register_MPRAGE_to_UMC_TSE_native_n, "warped_image", WNode.datasink, "UMC_register_MPRAGE_to_UMC_TSE_native_n"⟩,
         ⟨WNode.UMC_MPRAGE_reslice_n, "out_files", WNode.datasink, "UMC_MPRAGE_reslice_n"⟩,
         ⟨WNode.UMC_normalise_TSE_n, "out_files", WNode.datasink, "UMC_TSE_normalised"⟩,
         ⟨WNode.UMC_normalise_MPRAGE_n, "out_files", WNode.datasink, "UMC_MPRAGE_normalised"⟩]
    ∧ ((wfConnections.filter (fun e => decide (e.dst = WNode.datasink))).map WEdge.dstField).Nodup
    ∧ datasink_config = ⟨experiment_dir ++ working_dir, output_dir⟩ := by
  refine ⟨by decide, by decide, rfl⟩

/-- C6: the preprocessing script reads no command-line argument — the
workflow it builds is invariant under the process's `argv` — and its
behaviour is fixed by the hard-coded values at the top of the file: the
iterables are exactly the sorted directory listing and the hard-coded side
list, and the sink is rooted at the hard-coded directories. -/
theorem C6_no_cli_flags (argv1 argv2 listing : List String) :
    buildWorkflow ⟨argv1, listing⟩ = buildWorkflow ⟨argv2, listing⟩
    ∧ (buildWorkflow ⟨argv1, listing⟩).iterables
        = [("shorter_id", pySorted listing), ("side_id", ["right", "left"])]
    ∧ (buildWorkflow ⟨argv1, listing⟩).sink
        = ⟨"/data/fastertemp/uqmtottr/" ++ "Nipype_working_dir_20191014_UMC", "output_dir"⟩ :=
  ⟨rfl, rfl, rfl⟩

/-- C7: for every choice of arguments, the model returned by `unet_model_3d`
is compiled with `dice_coefficient_loss` as its training loss. -/
theorem C7_dice_loss (input_shape : List Nat) (pool_size : T3) (n_labels : Nat)
    (lr : Rat) (deconv : Bool) (depth n_base_filters : Nat) (ilw : Bool)
    (metrics : MetricsArg) (bn : Bool) (act : String) :
    Option.map CompileInfo.loss
        (unet_model_3d input_shape pool_size n_labels lr deconv depth n_base_filters ilw
          metrics bn act).compileInfo
      = some LossFn.dice_coefficient_loss :=
  rfl

/-- C8 counterexample: at a concrete, well-formed input, `dilated_couple`
raises `TypeError` — not the claimed `NameError` — because its first
statement already fails at Python call-argument binding. -/
theorem C8_counterexample :
    dilated_couple (Layer.input [1, 32, 32, 32]) 32 1 false (3, 3, 3) none "same" (1, 1, 1) false 50
      = Except.error PyErr.typeError
    ∧ PyErr.typeError ≠ PyErr.nameError
    ∧ lookupName dilated_couple_localNames "layer_depth" = Except.error PyErr.nameError := by
  refine ⟨rfl, by decide, rfl⟩

/-- C8 (amended): for every input, `dilated_couple` raises `TypeError`
before constructing any layer, because its first statement calls
`dilated_conv` with `n_filters` in the `input_layer` position and never
supplies the required `n_filters` parameter — so the unbound `layer_depth`
of line 175 (which would raise `NameError`) is never reached; consequently
`create_dilated_fusion_block` never returns a layer for any
`dilation_depth ≥ 1`. -/
theorem C8_dilated_couple_typeerror (inp : Layer) (nf dr : Nat) (bnb : Bool) (k : T3)
    (a : Option String) (p : String) (s : T3) (inorm : Bool) (drp : Nat)
    (inp2 : Layer) (nf2 : Nat) (dd : Nat) (bn2 : Bool) (k2 : T3) (a2 : Option String)
    (p2 : String) (s2 : T3) (in2 : Bool) (hdd : 1 ≤ dd) :
    dilated_couple inp nf dr bnb k a p s inorm drp = Except.error PyErr.typeError
    ∧ create_dilated_fusion_block inp2 nf2 dd bn2 k2 a2 p2 s2 in2 = Except.error PyErr.typeError := by
  constructor
  · rfl
  · obtain ⟨m, rfl⟩ : ∃ m, dd = m + 1 := ⟨dd - 1, by omega⟩
    unfold create_dilated_fusion_block
    rw [List.range_succ_eq_map]
    rfl

/-- C8 witness: both failures evaluated at `dilation_depth = 1`. -/
theorem C8_witness :
    (1 ≤ 1)
    ∧ dilated_couple (Layer.input [1]) 8 1 false (3, 3, 3) none "same" (1, 1, 1) false 50
        = Except.error PyErr.typeError
    ∧ create_dilated_fusion_block (Layer.input [1]) 8 1 false (3, 3, 3) none "same" (1, 1, 1) false
        = Except.error PyErr.typeError :=
  ⟨by decide,
   (C8_dilated_couple_typeerror (Layer.input [1]) 8 1 false (3, 3, 3) none "same" (1, 1, 1) false 50
     (Layer.input [1]) 8 1 false (3, 3, 3) none "same" (1, 1, 1) false (by decide)).1,
   (C8_dilated_couple_typeerror (Layer.input [1]) 8 1 false (3, 3, 3) none "same" (1, 1, 1) false 50
     (Layer.input [1]) 8 1 false (3, 3, 3) none "same" (1, 1, 1) false (by decide)).2⟩

/-- C9: `unet_model_3d` always hands `model.compile` a list of metrics: a
non-list argument is wrapped into a singleton list, and exactly when
`include_label_wise_dice_coefficients` is true and `n_labels > 1` the
per-label Dice metrics for indices `0 .. n_labels - 1` are appended to that
list. -/
theorem C9_metrics_list (input_shape : List Nat) (pool_size : T3) (n_labels : Nat)
    (lr : Rat) (deconv : Bool) (depth n_base_filters : Nat) (ilw : Bool)
    (metrics : MetricsArg) (bn : Bool) (act : String) :
    Option.map CompileInfo.metrics
        (unet_model_3d input_shape pool_size n_labels lr deconv depth n_base_filters ilw
          metrics bn act).compileInfo
      = some (pyListOf metrics ++
          (if ilw && decide (1 < n_labels) then
            (List.range n_labels).map Metric.label_wise_dice
          else [])) := by
  show some (unetMetrics metrics ilw n_labels) = _
  unfold unetMetrics
  by_cases h : ilw && decide (1 < n_labels)
  · rw [if_pos h, if_pos h]
    cases metrics with
    | single m => simp [pyListOf]
    | list ms =>
      cases ms with
      | nil => simp [pyListOf]
      | cons m rest => simp [pyListOf]
  · rw [if_neg h, if_neg h]
    simp

/-- C10: in `create_convolution_block`, batch normalization takes precedence
over instance normalization — under `batch_normalization = true` the
`instance_normalization` flag is ignored and a `BatchNormalization` follows
the convolution; an `InstanceNormalization` is applied exactly when
`batch_normalization` is false and `instance_normalization` is true; and
with `activation = None` the block ends with a relu activation. -/
theorem C10_normalization_precedence (inp : Layer) (nf : Nat) (k : T3)
    (act : Option String) (pad : String) (st : T3) (bn inst : Bool) :
    create_convolution_block inp nf true k act pad st inst
        = create_convolution_block inp nf true k act pad st false
    ∧ create_convolution_block inp nf true k act pad st inst
        = ccbFinish act (Layer.batchNorm 1 (Layer.conv3d nf k pad st 1 inp))
    ∧ create_convolution_block inp nf false k act pad st true
        = ccbFinish act (Layer.instanceNorm 1 (Layer.conv3d nf k pad st 1 inp))
    ∧ create_convolution_block inp nf false k act pad st false
        = ccbFinish act (Layer.conv3d nf k pad st 1 inp)
    ∧ Layer.topActivationName (create_convolution_block inp nf bn k none pad st inst)
        = some "relu" :=
  ⟨rfl, rfl, rfl, rfl, by cases bn <;> cases inst <;> rfl⟩
